import Mathlib

/-!
Shallow embedding of `src/globus_sdk/transport/retry/retry_checker.py`
(the retry-decision engine of the globus-sdk transport layer) and proofs
about its retry checkers.

A Python checker's `should_retry` returns `Union[float, bool, None]`:
`True` means retry, `False` means do not retry, `None` means no
determination, and a number means "delay this long, then retry".
We embed this return type as the inductive `Verdict` below.
-/

namespace RetryModel

/-- The verdict space of `should_retry`: `retry` embeds Python `True`,
`doNotRetry` embeds `False`, `indeterminate` embeds `None`, and
`retryAfter n` embeds a returned number (the parsed Retry-After value,
returned directly by the source). -/
inductive Verdict where
  | retry
  | doNotRetry
  | indeterminate
  | retryAfter (n : Int)
deriving DecidableEq, Repr

/-- Python values storable in `context.retry_state` (a `dict`), with just
the shapes the module and its callers use.  Needed to model Python
truthiness of `retry_state.get("has_done_reauth")`. -/
inductive PyValue where
  | pyBool (b : Bool)
  | pyNone
  | pyInt (n : Int)
  | pyStr (s : String)
deriving DecidableEq, Repr

/-- Python truthiness of a value: `bool(v)`. -/
def PyValue.truthy : PyValue → Bool
  | .pyBool b => b
  | .pyNone => false
  | .pyInt n => n ≠ 0
  | .pyStr s => s ≠ ""

/-- `context.retry_state`: a string-keyed Python dict, embedded as an
association list (first binding for a key wins). -/
def RetryState := List (String × PyValue)

instance : DecidableEq RetryState := by
  unfold RetryState
  infer_instance

/-- `d.get(k)` on a Python dict: `some v` if the key is bound, else `none`. -/
def stateGet (st : RetryState) (k : String) : Option PyValue :=
  match st with
  | [] => none
  | (k', v) :: rest => if k' = k then some v else stateGet rest k

/-- `d[k] = v` on a Python dict: overwrite the binding if present, else add it. -/
def stateSet (st : RetryState) (k : String) (v : PyValue) : RetryState :=
  match st with
  | [] => [(k, v)]
  | (k', v') :: rest => if k' = k then (k, v) :: rest else (k', v') :: stateSet rest k v

/-- Python truthiness of `d.get(k)` (where a missing key gives falsy `None`). -/
def truthyOpt : Option PyValue → Bool
  | none => false
  | some v => v.truthy

/-- Exception kinds a `RetryContext.exception` can carry.  The first four
are classes of the `requests` library, every one of which subclasses
`requests.RequestException`; the last two are exceptions from outside the
`requests` hierarchy. -/
inductive PyException where
  | connectTimeout        -- requests.ConnectTimeout (a network timeout)
  | connectionError       -- requests.ConnectionError (a network failure)
  | chunkedEncodingError  -- requests.ChunkedEncodingError (bad transfer encoding)
  | invalidURL            -- requests.InvalidURL (malformed request URL)
  | valueError            -- builtins.ValueError (not a requests exception)
  | keyboardInterrupt     -- builtins.KeyboardInterrupt (not a requests exception)
deriving DecidableEq, Repr

/-- `isinstance(e, requests.RequestException)`: true for every exception
class of the `requests` library (all of them subclass
`requests.RequestException`, including encoding and malformed-URL
errors), false for exceptions from outside `requests`. -/
def isRequestsRequestException : PyException → Bool
  | .connectTimeout => true
  | .connectionError => true
  | .chunkedEncodingError => true
  | .invalidURL => true
  | .valueError => false
  | .keyboardInterrupt => false

/-- `requests.Response` as the checkers consume it: a status code and a
header mapping. -/
structure Response where
  status_code : Nat
  headers : List (String × String)
deriving DecidableEq, Repr

/-- ASCII lower-casing of a character, as a code point. -/
def lowerNat (c : Char) : Nat :=
  if 65 ≤ c.toNat ∧ c.toNat ≤ 90 then c.toNat + 32 else c.toNat

/-- Case-insensitive (ASCII) equality of two character lists. -/
def eqIgnoreCase (a b : List Char) : Bool :=
  match a, b with
  | [], [] => true
  | c :: a', d :: b' => lowerNat c = lowerNat d && eqIgnoreCase a' b'
  | _, _ => false

/-- `response.headers.get(k)`: `requests` headers are a case-insensitive
dict, so lookup compares keys case-insensitively. -/
def headersGet (hs : List (String × String)) (k : String) : Option String :=
  match hs with
  | [] => none
  | (k', v) :: rest => if eqIgnoreCase k'.data k.data then some v else headersGet rest k

/-- The authorizer capability as the checker uses it: the (deterministic)
result its `handle_missing_authorization()` call would report. -/
structure Authorizer where
  refreshResult : Bool
deriving DecidableEq, Repr

/-- `RetryContext` as consumed by the checkers: the attempt number, the
optional transport exception, the optional response, and the optional
authorizer.  The mutable `retry_state` dict is threaded separately so
that state updates are explicit. -/
structure RetryContext where
  attempt : Nat
  exception : Option PyException
  response : Option Response
  authorizer : Option Authorizer
deriving DecidableEq, Repr

/-- Digits-to-number: `some n` when the character list is a nonempty
string of ASCII digits, else `none`. -/
def digitsToNat (cs : List Char) : Option Nat :=
  if cs ≠ [] ∧ cs.all Char.isDigit then
    some (cs.foldl (fun a c => a * 10 + (c.toNat - 48)) 0)
  else none

/-- ASCII whitespace, as stripped by Python's `int()`. -/
def isPySpace (c : Char) : Bool :=
  c.toNat = 32 ∨ c.toNat = 9 ∨ c.toNat = 10 ∨ c.toNat = 13 ∨
  c.toNat = 11 ∨ c.toNat = 12

/-- Strip leading and trailing whitespace from a character list. -/
def trimChars (cs : List Char) : List Char :=
  ((cs.dropWhile isPySpace).reverse.dropWhile isPySpace).reverse

/-- Python `int(s)` on a string: strip surrounding whitespace, accept an
optional sign followed by digits; raise `ValueError` (here: `none`)
otherwise. -/
def pyIntOfString (s : String) : Option Int :=
  match trimChars s.data with
  | '+' :: rest => (digitsToNat rest).map Int.ofNat
  | '-' :: rest => (digitsToNat rest).map (fun n => -(n : Int))
  | cs => (digitsToNat cs).map Int.ofNat

namespace MaxRetriesRetryChecker

/-- `MaxRetriesRetryChecker.should_retry`: `False` once the attempt
count exceeds `max_retries`, else fall through (`None`). -/
def should_retry (max_retries : Nat) (context : RetryContext) : Verdict :=
  if context.attempt > max_retries then .doNotRetry else .indeterminate

end MaxRetriesRetryChecker

namespace StandardExceptionRetryChecker

/-- `StandardExceptionRetryChecker.should_retry`: with a (truthy)
exception present, `True` iff it is a `requests.RequestException`,
else `False`; with no exception, fall through (`None`). -/
def should_retry (context : RetryContext) : Verdict :=
  match context.exception with
  | some e => if isRequestsRequestException e then .retry else .doNotRetry
  | none => .indeterminate

end StandardExceptionRetryChecker

namespace RetryAfterRetryChecker

/-- HTTP errors which may carry a Retry-After header. -/
def STATUS_CODES : List Nat := [429, 503]

/-- `RetryAfterRetryChecker._parse_retry_after`: read the `Retry-After`
header; a missing or falsy (empty) value gives `None`; otherwise try
`int(val)`, with `ValueError` giving `None`. -/
def parse_retry_after (response : Response) : Option Int :=
  match headersGet response.headers "Retry-After" with
  | none => none
  | some val => if val = "" then none else pyIntOfString val

/-- `RetryAfterRetryChecker.should_retry`: `None` without a response;
on status 429/503, return the parsed Retry-After value when it is
truthy (nonzero), else `True`; other statuses fall through (`None`). -/
def should_retry (context : RetryContext) : Verdict :=
  match context.response with
  | none => .indeterminate
  | some response =>
    if response.status_code ∈ STATUS_CODES then
      match parse_retry_after response with
      | some retry_after => if retry_after ≠ 0 then .retryAfter retry_after else .retry
      | none => .retry
    else .indeterminate

end RetryAfterRetryChecker

namespace TransientErrorRetryChecker

/-- HTTP errors which may resolve after retries in normal conditions. -/
def STATUS_CODES : List Nat := [429, 500, 502, 503, 504]

/-- `TransientErrorRetryChecker.should_retry`: `None` without a response;
`True` on the transient statuses; other statuses fall through (`None`). -/
def should_retry (context : RetryContext) : Verdict :=
  match context.response with
  | none => .indeterminate
  | some response =>
    if response.status_code ∈ STATUS_CODES then .retry else .indeterminate

end TransientErrorRetryChecker

namespace ExpiredAuthorizationRetryChecker

/-- HTTP status for services to indicate an expired token. -/
def STATUS_CODES : List Nat := [401]

/-- Outcome of one `ExpiredAuthorizationRetryChecker.should_retry` call:
the verdict, the resulting `retry_state`, and instrumentation counting
the calls to `authorizer.handle_missing_authorization()` made during the
evaluation (`refreshCalls`) and how many of them reported success
(`refreshSuccesses`). -/
structure Outcome where
  verdict : Verdict
  state : RetryState
  refreshCalls : Nat
  refreshSuccesses : Nat
deriving DecidableEq

/-- `ExpiredAuthorizationRetryChecker.should_retry`: fall through
(`None`) without a response, on a non-401 status, without an authorizer,
or when `retry_state.get("has_done_reauth")` is truthy; otherwise call
`authorizer.handle_missing_authorization()` — on failure fall through
(`None`), on success set the `has_done_reauth` flag and return `True`. -/
def should_retry (context : RetryContext) (st : RetryState) : Outcome :=
  match context.response with
  | none => ⟨.indeterminate, st, 0, 0⟩
  | some response =>
    if response.status_code ∈ STATUS_CODES then
      match context.authorizer with
      | none => ⟨.indeterminate, st, 0, 0⟩
      | some authorizer =>
        if truthyOpt (stateGet st "has_done_reauth") then
          ⟨.indeterminate, st, 0, 0⟩
        else if authorizer.refreshResult then
          ⟨.retry, stateSet st "has_done_reauth" (.pyBool true), 1, 1⟩
        else
          ⟨.indeterminate, st, 1, 0⟩
    else ⟨.indeterminate, st, 0, 0⟩

/-- Run a sequence of `should_retry` evaluations (one logical request:
the contexts share one threaded `retry_state`), returning the final
state and the total counts of refresh calls and successful refresh
calls. -/
def runSeq (contexts : List RetryContext) (st : RetryState) :
    RetryState × Nat × Nat :=
  match contexts with
  | [] => (st, 0, 0)
  | c :: rest =>
    let o := should_retry c st
    let r := runSeq rest o.state
    (r.1, o.refreshCalls + r.2.1, o.refreshSuccesses + r.2.2)

end ExpiredAuthorizationRetryChecker

/-- A checker in uniform stateful form, as consumed by the policy:
from a context and the current `retry_state` to a verdict and the
(possibly updated) `retry_state`. -/
def Checker := RetryContext → RetryState → Verdict × RetryState

/-- Lift a pure (state-free) checker into the uniform form. -/
def liftPure (f : RetryContext → Verdict) : Checker :=
  fun context st => (f context, st)

/-- `MaxRetriesRetryChecker` in uniform form. -/
def maxRetriesChecker (max_retries : Nat) : Checker :=
  liftPure (MaxRetriesRetryChecker.should_retry max_retries)

/-- `StandardExceptionRetryChecker` in uniform form. -/
def standardExceptionChecker : Checker :=
  liftPure StandardExceptionRetryChecker.should_retry

/-- `RetryAfterRetryChecker` in uniform form. -/
def retryAfterChecker : Checker :=
  liftPure RetryAfterRetryChecker.should_retry

/-- `TransientErrorRetryChecker` in uniform form. -/
def transientErrorChecker : Checker :=
  liftPure TransientErrorRetryChecker.should_retry

/-- `ExpiredAuthorizationRetryChecker` in uniform form. -/
def expiredAuthorizationChecker (context : RetryContext) (st : RetryState) :
    Verdict × RetryState :=
  let o := ExpiredAuthorizationRetryChecker.should_retry context st
  (o.verdict, o.state)

namespace RetryPolicy

/-- Modelled from the spec: the `RetryPolicy` combinator itself is not
among the provided sources (only the checker module is), so
`evaluate(context)` is taken from the spec's words: iterate the
configured checkers in order; the first checker to return a
non-Indeterminate verdict determines the outcome and terminates the
scan; if every checker returns Indeterminate, default to DoNotRetry. -/
def evaluate (checkers : List Checker) (context : RetryContext)
    (st : RetryState) : Verdict × RetryState :=
  match checkers with
  | [] => (.doNotRetry, st)
  | c :: rest =>
    let r := c context st
    if r.1 = .indeterminate then evaluate rest context r.2 else r

/-- Thread the `retry_state` through a list of checkers, keeping only the
final state (used to speak about the state a later checker sees). -/
def runAll (checkers : List Checker) (context : RetryContext)
    (st : RetryState) : RetryState :=
  match checkers with
  | [] => st
  | c :: rest => runAll rest context (c context st).2

/-- `true` iff every checker in the list, evaluated in order with the
state threaded through, returns Indeterminate. -/
def allIndeterminate (checkers : List Checker) (context : RetryContext)
    (st : RetryState) : Bool :=
  match checkers with
  | [] => true
  | c :: rest =>
    let r := c context st
    if r.1 = .indeterminate then allIndeterminate rest context r.2 else false

end RetryPolicy

/-- The spec's classification for `TransportExceptionChecker`: is the
exception a network/transport-layer failure (a connection error or a
timeout)?  Stated from the spec's words, for comparison with the
source's `isinstance(e, requests.RequestException)` test. -/
def isNetworkTransportFailureSpec : PyException → Bool
  | .connectTimeout => true
  | .connectionError => true
  | .chunkedEncodingError => false
  | .invalidURL => false
  | .valueError => false
  | .keyboardInterrupt => false

/-- A checker evaluated twice on the same context (the second time on the
state the first evaluation left behind) yields the same verdict, and
leaves the state untouched. -/
def twiceSameVerdict (c : Checker) (context : RetryContext) (st : RetryState) : Prop :=
  (c context st).1 = (c context (c context st).2).1 ∧ (c context st).2 = st

/-- Concrete context: attempt 6, nothing else populated. -/
def ctxAttempt6 : RetryContext :=
  { attempt := 6, exception := none, response := none, authorizer := none }

/-- Concrete context: attempt 3, nothing else populated. -/
def ctxAttempt3 : RetryContext :=
  { attempt := 3, exception := none, response := none, authorizer := none }

/-- Concrete context: a 429 response carrying `Retry-After: 0`. -/
def ctx429zero : RetryContext :=
  { attempt := 1, exception := none,
    response := some ⟨429, [("Retry-After", "0")]⟩, authorizer := none }

/-- Concrete context: a 429 response carrying `Retry-After: 5`. -/
def ctx429five : RetryContext :=
  { attempt := 1, exception := none,
    response := some ⟨429, [("Retry-After", "5")]⟩, authorizer := none }

/-- Concrete context: a 429 response carrying `Retry-After: -5`. -/
def ctx429negfive : RetryContext :=
  { attempt := 1, exception := none,
    response := some ⟨429, [("Retry-After", "-5")]⟩, authorizer := none }

/-- Concrete context: a 503 response carrying the malformed header
`Retry-After: soon`. -/
def ctx503soon : RetryContext :=
  { attempt := 1, exception := none,
    response := some ⟨503, [("Retry-After", "soon")]⟩, authorizer := none }

/-- Concrete context: a `requests.ConnectTimeout` exception, no response. -/
def ctxTimeout : RetryContext :=
  { attempt := 1, exception := some .connectTimeout, response := none,
    authorizer := none }

/-- Concrete context: a `requests.InvalidURL` exception, no response. -/
def ctxInvalidURL : RetryContext :=
  { attempt := 1, exception := some .invalidURL, response := none,
    authorizer := none }

/-- Concrete context: neither exception nor response populated. -/
def ctxNoInfo : RetryContext :=
  { attempt := 1, exception := none, response := none, authorizer := none }

/-- Concrete context: a 401 response with an authorizer whose refresh
call succeeds. -/
def ctx401T : RetryContext :=
  { attempt := 1, exception := none, response := some ⟨401, []⟩,
    authorizer := some ⟨true⟩ }

/-- Concrete context: a 401 response with an authorizer whose refresh
call fails. -/
def ctx401F : RetryContext :=
  { attempt := 1, exception := none, response := some ⟨401, []⟩,
    authorizer := some ⟨false⟩ }

/-- Concrete context: a 500 response, no headers. -/
def ctx500 : RetryContext :=
  { attempt := 1, exception := none, response := some ⟨500, []⟩,
    authorizer := none }

/-- Concrete retry state in which the reauthorization flag is set. -/
def flagState : RetryState := [("has_done_reauth", PyValue.pyBool true)]

/-- Looking up a key right after setting it returns the stored value. -/
theorem stateGet_stateSet_self (st : RetryState) (k : String) (v : PyValue) :
    stateGet (stateSet st k v) k = some v := by
  induction st with
  | nil => simp [stateSet, stateGet]
  | cons hd tl ih =>
    obtain ⟨k', v'⟩ := hd
    by_cases h : k' = k
    · simp [stateSet, stateGet, h]
    · simp [stateSet, stateGet, h, ih]

/-- Claim C4: `MaxRetriesRetryChecker.should_retry` returns DoNotRetry
for every context whose attempt count strictly exceeds the configured
`max_retries` limit, regardless of the context's exception or response,
and Indeterminate for every context whose attempt count is at most the
limit. -/
theorem claim_C4_max_retries (max_retries : Nat) (context : RetryContext) :
    (context.attempt > max_retries →
      MaxRetriesRetryChecker.should_retry max_retries context = .doNotRetry) ∧
    (context.attempt ≤ max_retries →
      MaxRetriesRetryChecker.should_retry max_retries context = .indeterminate) := by
  constructor
  · intro h
    simp [MaxRetriesRetryChecker.should_retry, h]
  · intro h
    simp [MaxRetriesRetryChecker.should_retry, Nat.not_lt.mpr h]

/-- Witness for claim C4 at concrete attempt counts 6 and 3 against the
default limit 5. -/
theorem claim_C4_max_retries_w :
    MaxRetriesRetryChecker.should_retry 5 ctxAttempt6 = .doNotRetry ∧
    MaxRetriesRetryChecker.should_retry 5 ctxAttempt3 = .indeterminate :=
  ⟨(claim_C4_max_retries 5 ctxAttempt6).1 (by decide),
   (claim_C4_max_retries 5 ctxAttempt3).2 (by decide)⟩

/-- Counterexample to claim C2: a 429 response whose `Retry-After`
header is the valid non-negative integer 0 produces a plain Retry
verdict, not RetryAfter(0): the source's truthiness test on the parsed
integer drops the zero case. -/
theorem claim_C2_counterexample :
    RetryAfterRetryChecker.parse_retry_after ⟨429, [("Retry-After", "0")]⟩ = some 0 ∧
    RetryAfterRetryChecker.should_retry ctx429zero = .retry ∧
    Verdict.retry ≠ Verdict.retryAfter 0 := by
  refine ⟨by decide, by decide, by decide⟩

/-- Claim C2 as amended: for every response with status 429 or 503 whose
`Retry-After` header parses as an integer N with N ≥ 1,
`RetryAfterRetryChecker.should_retry` returns RetryAfter(N) exactly
(a value of exactly 0 instead falls back to a plain Retry). -/
theorem claim_C2_amended (context : RetryContext) (response : Response) (n : Int)
    (hr : context.response = some response)
    (hs : response.status_code ∈ RetryAfterRetryChecker.STATUS_CODES)
    (hp : RetryAfterRetryChecker.parse_retry_after response = some n)
    (hn : 1 ≤ n) :
    RetryAfterRetryChecker.should_retry context = .retryAfter n := by
  simp only [RetryAfterRetryChecker.should_retry, hr, hp, if_pos hs]
  simp [show ¬ n = 0 by omega]

/-- Witness for amended claim C2 at a concrete 429 response with
`Retry-After: 5`. -/
theorem claim_C2_amended_w :
    RetryAfterRetryChecker.should_retry ctx429five = .retryAfter 5 :=
  claim_C2_amended ctx429five ⟨429, [("Retry-After", "5")]⟩ 5 rfl
    (by decide) (by decide) (by decide)

/-- Claim C7: for every response with status 429 or 503 whose
`Retry-After` header is absent, empty, or not parsable as an integer,
`RetryAfterRetryChecker.should_retry` returns the plain Retry verdict
(and, being a total function, raises no error). -/
theorem claim_C7_unparsable (context : RetryContext) (response : Response)
    (hr : context.response = some response)
    (hs : response.status_code ∈ RetryAfterRetryChecker.STATUS_CODES)
    (hp : headersGet response.headers "Retry-After" = none ∨
          headersGet response.headers "Retry-After" = some "" ∨
          ∃ v, headersGet response.headers "Retry-After" = some v ∧
            pyIntOfString v = none) :
    RetryAfterRetryChecker.should_retry context = .retry := by
  have hpn : RetryAfterRetryChecker.parse_retry_after response = none := by
    unfold RetryAfterRetryChecker.parse_retry_after
    rcases hp with h | h | ⟨v, hv, hpv⟩
    · simp [h]
    · simp [h]
    · rcases eq_or_ne v "" with rfl | hne
      · simp [hv]
      · simp [hv, hne, hpv]
  simp only [RetryAfterRetryChecker.should_retry, hr, hpn, if_pos hs]

/-- Witness for claim C7 at a concrete 503 response with the malformed
header `Retry-After: soon`. -/
theorem claim_C7_unparsable_w :
    RetryAfterRetryChecker.should_retry ctx503soon = .retry :=
  claim_C7_unparsable ctx503soon ⟨503, [("Retry-After", "soon")]⟩ rfl
    (by decide) (Or.inr (Or.inr ⟨"soon", by decide, by decide⟩))

/-- Claim C9: for every response with status 429 or 503 whose
`Retry-After` header parses as a negative integer,
`RetryAfterRetryChecker.should_retry` returns that negative integer as
the delay verdict, so the delay carried by the verdict can be negative. -/
theorem claim_C9_negative (context : RetryContext) (response : Response) (n : Int)
    (hr : context.response = some response)
    (hs : response.status_code ∈ RetryAfterRetryChecker.STATUS_CODES)
    (hp : RetryAfterRetryChecker.parse_retry_after response = some n)
    (hn : n < 0) :
    RetryAfterRetryChecker.should_retry context = .retryAfter n := by
  simp only [RetryAfterRetryChecker.should_retry, hr, hp, if_pos hs]
  simp [show ¬ n = 0 by omega]

/-- Witness for claim C9 at a concrete 429 response with
`Retry-After: -5`. -/
theorem claim_C9_negative_w :
    RetryAfterRetryChecker.should_retry ctx429negfive = .retryAfter (-5) :=
  claim_C9_negative ctx429negfive ⟨429, [("Retry-After", "-5")]⟩ (-5) rfl
    (by decide) (by decide) (by decide)

/-- Counterexample to claim C3: `requests.InvalidURL` is a
malformed-request exception — not a network/transport-layer failure in
the spec's classification — yet `StandardExceptionRetryChecker`
returns Retry for it (it is an instance of
`requests.RequestException`), where the claim demands DoNotRetry. -/
theorem claim_C3_counterexample :
    ctxInvalidURL.exception = some PyException.invalidURL ∧
    isNetworkTransportFailureSpec PyException.invalidURL = false ∧
    StandardExceptionRetryChecker.should_retry ctxInvalidURL = .retry ∧
    Verdict.retry ≠ Verdict.doNotRetry := by
  refine ⟨rfl, rfl, by decide, by decide⟩

/-- Claim C3 as amended: with a populated exception,
`StandardExceptionRetryChecker.should_retry` returns Retry exactly when
the exception is an instance of `requests.RequestException` — which
includes connection errors and timeouts but also the `requests`
library's malformed-request and encoding exceptions — and DoNotRetry
for exceptions outside the `requests` hierarchy; with no exception it
returns Indeterminate. -/
theorem claim_C3_amended (context : RetryContext) :
    (∀ e, context.exception = some e →
      StandardExceptionRetryChecker.should_retry context =
        (if isRequestsRequestException e then .retry else .doNotRetry)) ∧
    (context.exception = none →
      StandardExceptionRetryChecker.should_retry context = .indeterminate) := by
  constructor
  · intro e he
    simp [StandardExceptionRetryChecker.should_retry, he]
  · intro he
    simp [StandardExceptionRetryChecker.should_retry, he]

/-- Witness for amended claim C3 at a concrete timeout exception and a
concrete context with no exception. -/
theorem claim_C3_amended_w :
    StandardExceptionRetryChecker.should_retry ctxTimeout =
      (if isRequestsRequestException PyException.connectTimeout then .retry
       else .doNotRetry) ∧
    StandardExceptionRetryChecker.should_retry ctxNoInfo = .indeterminate :=
  ⟨(claim_C3_amended ctxTimeout).1 PyException.connectTimeout rfl,
   (claim_C3_amended ctxNoInfo).2 rfl⟩

/-- One `ExpiredAuthorizationRetryChecker.should_retry` evaluation has
exactly three possible shapes: a fall-through that touches nothing, a
failed refresh call that touches nothing else, or a successful refresh
call that sets the reauthorization flag and returns Retry; the refresh
call happens only with the flag unset. -/
theorem EA_step_shape (context : RetryContext) (st : RetryState) :
    ExpiredAuthorizationRetryChecker.should_retry context st =
      ⟨.indeterminate, st, 0, 0⟩ ∨
    (truthyOpt (stateGet st "has_done_reauth") = false ∧
     ExpiredAuthorizationRetryChecker.should_retry context st =
       ⟨.indeterminate, st, 1, 0⟩) ∨
    (truthyOpt (stateGet st "has_done_reauth") = false ∧
     ExpiredAuthorizationRetryChecker.should_retry context st =
       ⟨.retry, stateSet st "has_done_reauth" (.pyBool true), 1, 1⟩) := by
  obtain ⟨attempt, exc, resp, auth⟩ := context
  cases resp with
  | none => exact Or.inl rfl
  | some response =>
    by_cases hs : response.status_code ∈ ExpiredAuthorizationRetryChecker.STATUS_CODES
    · cases auth with
      | none =>
        left
        simp [ExpiredAuthorizationRetryChecker.should_retry, hs]
      | some a =>
        by_cases hflag : truthyOpt (stateGet st "has_done_reauth") = true
        · left
          simp [ExpiredAuthorizationRetryChecker.should_retry, hs, hflag]
        · replace hflag : truthyOpt (stateGet st "has_done_reauth") = false := by
            simpa using hflag
          cases ha : a.refreshResult with
          | true =>
            right; right
            refine ⟨hflag, ?_⟩
            simp [ExpiredAuthorizationRetryChecker.should_retry, hs, hflag, ha]
          | false =>
            right; left
            refine ⟨hflag, ?_⟩
            simp [ExpiredAuthorizationRetryChecker.should_retry, hs, hflag, ha]
    · left
      simp [ExpiredAuthorizationRetryChecker.should_retry, hs]

/-- With the reauthorization flag already truthy, an evaluation of
`ExpiredAuthorizationRetryChecker.should_retry` falls through with no
refresh call and no state change. -/
theorem EA_flag_noop (context : RetryContext) (st : RetryState)
    (h : truthyOpt (stateGet st "has_done_reauth") = true) :
    ExpiredAuthorizationRetryChecker.should_retry context st =
      ⟨.indeterminate, st, 0, 0⟩ := by
  rcases EA_step_shape context st with h1 | ⟨hf, h1⟩ | ⟨hf, h1⟩
  · exact h1
  · rw [h] at hf; cases hf
  · rw [h] at hf; cases hf

/-- With the reauthorization flag already truthy, a whole sequence of
evaluations makes no refresh call and leaves the state unchanged. -/
theorem EA_runSeq_flag (contexts : List RetryContext) (st : RetryState)
    (h : truthyOpt (stateGet st "has_done_reauth") = true) :
    ExpiredAuthorizationRetryChecker.runSeq contexts st = (st, 0, 0) := by
  induction contexts with
  | nil => rfl
  | cons c rest ih =>
    simp [ExpiredAuthorizationRetryChecker.runSeq, EA_flag_noop c st h, ih]

/-- Setting the reauthorization flag makes it truthy. -/
theorem flag_truthy_after_set (st : RetryState) :
    truthyOpt (stateGet (stateSet st "has_done_reauth" (.pyBool true))
      "has_done_reauth") = true := by
  rw [stateGet_stateSet_self]
  rfl

/-- Counterexample to claim C1: two `should_retry` evaluations of
`ExpiredAuthorizationRetryChecker` sharing one retry_state map, both
seeing a 401 response and an authorizer whose refresh fails, invoke
`handle_missing_authorization` twice — the flag is only set on a
successful refresh, so a failing refresh is re-invoked. -/
theorem claim_C1_counterexample :
    (ExpiredAuthorizationRetryChecker.runSeq [ctx401F, ctx401F] []).2.1 = 2 ∧
    ¬ (ExpiredAuthorizationRetryChecker.runSeq [ctx401F, ctx401F] []).2.1 ≤ 1 := by
  refine ⟨by decide, by decide⟩

/-- Claim C1 as amended: across every sequence of `should_retry`
evaluations of `ExpiredAuthorizationRetryChecker` sharing one
retry_state map, at most one invocation of the authorizer's
`handle_missing_authorization` reports success — once one succeeds the
flag is set and no further invocations occur at all — but a failing
invocation may be repeated on later 401 responses. -/
theorem claim_C1_amended (contexts : List RetryContext) (st : RetryState) :
    (ExpiredAuthorizationRetryChecker.runSeq contexts st).2.2 ≤ 1 ∧
    (truthyOpt (stateGet st "has_done_reauth") = true →
      ExpiredAuthorizationRetryChecker.runSeq contexts st = (st, 0, 0)) := by
  constructor
  · induction contexts generalizing st with
    | nil => simp [ExpiredAuthorizationRetryChecker.runSeq]
    | cons c rest ih =>
      rcases EA_step_shape c st with h1 | ⟨hf, h1⟩ | ⟨hf, h1⟩
      · simp only [ExpiredAuthorizationRetryChecker.runSeq, h1]
        simpa using ih st
      · simp only [ExpiredAuthorizationRetryChecker.runSeq, h1]
        simpa using ih st
      · simp only [ExpiredAuthorizationRetryChecker.runSeq, h1]
        simp [EA_runSeq_flag rest _ (flag_truthy_after_set st)]
  · intro h
    exact EA_runSeq_flag contexts st h

/-- Witness for amended claim C1 at a concrete two-evaluation sequence
(successful refresh) and a concrete pre-set flag state. -/
theorem claim_C1_amended_w :
    (ExpiredAuthorizationRetryChecker.runSeq [ctx401T, ctx401T] []).2.2 ≤ 1 ∧
    ExpiredAuthorizationRetryChecker.runSeq [ctx401T, ctx401T] flagState =
      (flagState, 0, 0) :=
  ⟨(claim_C1_amended [ctx401T, ctx401T] []).1,
   (claim_C1_amended [ctx401T, ctx401T] flagState).2 (by decide)⟩

/-- Claim C5: on a 401 response with an authorizer and no prior flag, a
successful refresh sets the flag and returns Retry; a failed refresh or
any unmet precondition (no response, non-401 status, no authorizer,
flag already set) gives Indeterminate; the verdict is never DoNotRetry;
and a second 401 evaluation after the successful one (flag now set)
gives Indeterminate. -/
theorem claim_C5_expired_auth (context : RetryContext) (st : RetryState) :
    (∀ response authorizer,
      context.response = some response → response.status_code = 401 →
      context.authorizer = some authorizer →
      truthyOpt (stateGet st "has_done_reauth") = false →
      authorizer.refreshResult = true →
      ExpiredAuthorizationRetryChecker.should_retry context st =
        ⟨.retry, stateSet st "has_done_reauth" (.pyBool true), 1, 1⟩) ∧
    (∀ response authorizer,
      context.response = some response → response.status_code = 401 →
      context.authorizer = some authorizer →
      truthyOpt (stateGet st "has_done_reauth") = false →
      authorizer.refreshResult = false →
      ExpiredAuthorizationRetryChecker.should_retry context st =
        ⟨.indeterminate, st, 1, 0⟩) ∧
    (context.response = none →
      (ExpiredAuthorizationRetryChecker.should_retry context st).verdict =
        .indeterminate) ∧
    (∀ response, context.response = some response → response.status_code ≠ 401 →
      (ExpiredAuthorizationRetryChecker.should_retry context st).verdict =
        .indeterminate) ∧
    (context.authorizer = none →
      (ExpiredAuthorizationRetryChecker.should_retry context st).verdict =
        .indeterminate) ∧
    (truthyOpt (stateGet st "has_done_reauth") = true →
      (ExpiredAuthorizationRetryChecker.should_retry context st).verdict =
        .indeterminate) ∧
    ((ExpiredAuthorizationRetryChecker.should_retry context st).verdict ≠
      .doNotRetry) ∧
    (∀ response authorizer,
      context.response = some response → response.status_code = 401 →
      context.authorizer = some authorizer →
      truthyOpt (stateGet st "has_done_reauth") = false →
      authorizer.refreshResult = true →
      (ExpiredAuthorizationRetryChecker.should_retry context
        (ExpiredAuthorizationRetryChecker.should_retry context st).state).verdict =
        .indeterminate) := by
  have hsucc : ∀ response authorizer,
      context.response = some response → response.status_code = 401 →
      context.authorizer = some authorizer →
      truthyOpt (stateGet st "has_done_reauth") = false →
      authorizer.refreshResult = true →
      ExpiredAuthorizationRetryChecker.should_retry context st =
        ⟨.retry, stateSet st "has_done_reauth" (.pyBool true), 1, 1⟩ := by
    intro response authorizer hr h401 ha hflag hrefresh
    simp [ExpiredAuthorizationRetryChecker.should_retry, hr, ha, hflag, hrefresh,
      ExpiredAuthorizationRetryChecker.STATUS_CODES, h401]
  refine ⟨hsucc, ?_, ?_, ?_, ?_, ?_, ?_, ?_⟩
  · intro response authorizer hr h401 ha hflag hrefresh
    simp [ExpiredAuthorizationRetryChecker.should_retry, hr, ha, hflag, hrefresh,
      ExpiredAuthorizationRetryChecker.STATUS_CODES, h401]
  · intro h
    simp [ExpiredAuthorizationRetryChecker.should_retry, h]
  · intro response hr hne
    simp [ExpiredAuthorizationRetryChecker.should_retry, hr,
      ExpiredAuthorizationRetryChecker.STATUS_CODES, hne]
  · intro ha
    rcases hresp : context.response with _ | response
    · simp [ExpiredAuthorizationRetryChecker.should_retry, hresp]
    · simp only [ExpiredAuthorizationRetryChecker.should_retry, hresp, ha]
      split <;> rfl
  · intro h
    rw [EA_flag_noop context st h]
  · rcases EA_step_shape context st with h1 | ⟨hf, h1⟩ | ⟨hf, h1⟩ <;>
      rw [h1] <;> simp
  · intro response authorizer hr h401 ha hflag hrefresh
    rw [hsucc response authorizer hr h401 ha hflag hrefresh]
    rw [EA_flag_noop context _ (flag_truthy_after_set st)]

/-- Witness for claim C5 at concrete 401 contexts: successful refresh,
failed refresh, pre-set flag, and a second 401 after a success. -/
theorem claim_C5_expired_auth_w :
    ExpiredAuthorizationRetryChecker.should_retry ctx401T [] =
      ⟨.retry, stateSet [] "has_done_reauth" (.pyBool true), 1, 1⟩ ∧
    ExpiredAuthorizationRetryChecker.should_retry ctx401F [] =
      ⟨.indeterminate, [], 1, 0⟩ ∧
    (ExpiredAuthorizationRetryChecker.should_retry ctx401T flagState).verdict =
      .indeterminate ∧
    (ExpiredAuthorizationRetryChecker.should_retry ctx401T
      (ExpiredAuthorizationRetryChecker.should_retry ctx401T []).state).verdict =
      .indeterminate :=
  ⟨(claim_C5_expired_auth ctx401T []).1 ⟨401, []⟩ ⟨true⟩ rfl rfl rfl (by decide) rfl,
   (claim_C5_expired_auth ctx401F []).2.1 ⟨401, []⟩ ⟨false⟩ rfl rfl rfl (by decide) rfl,
   (claim_C5_expired_auth ctx401T flagState).2.2.2.2.2.1 (by decide),
   (claim_C5_expired_auth ctx401T []).2.2.2.2.2.2.2 ⟨401, []⟩ ⟨true⟩ rfl rfl rfl
     (by decide) rfl⟩

/-- Claim C10: with the reauthorization flag already truthy,
`ExpiredAuthorizationRetryChecker.should_retry` returns Indeterminate
without invoking the refresh method (zero refresh calls) and without
touching the state; the flag stays truthy afterwards; from any state an
evaluation either leaves the state untouched or leaves the flag truthy;
and none of the other four checkers touches the state at all — so the
flag is monotone across the evaluations of one logical request. -/
theorem claim_C10_flag_monotone (context : RetryContext) (st : RetryState) :
    (truthyOpt (stateGet st "has_done_reauth") = true →
      ExpiredAuthorizationRetryChecker.should_retry context st =
        ⟨.indeterminate, st, 0, 0⟩) ∧
    (truthyOpt (stateGet st "has_done_reauth") = true →
      truthyOpt (stateGet
        (ExpiredAuthorizationRetryChecker.should_retry context st).state
        "has_done_reauth") = true) ∧
    ((ExpiredAuthorizationRetryChecker.should_retry context st).state = st ∨
      truthyOpt (stateGet
        (ExpiredAuthorizationRetryChecker.should_retry context st).state
        "has_done_reauth") = true) ∧
    (∀ max_retries, (maxRetriesChecker max_retries context st).2 = st) ∧
    (standardExceptionChecker context st).2 = st ∧
    (retryAfterChecker context st).2 = st ∧
    (transientErrorChecker context st).2 = st := by
  refine ⟨fun h => EA_flag_noop context st h, fun h => ?_, ?_,
    fun _ => rfl, rfl, rfl, rfl⟩
  · rw [EA_flag_noop context st h]
    exact h
  · rcases EA_step_shape context st with h1 | ⟨hf, h1⟩ | ⟨hf, h1⟩
    · left; rw [h1]
    · left; rw [h1]
    · right; rw [h1]
      exact flag_truthy_after_set st

/-- Witness for claim C10 at a concrete 401 context and a concrete state
with the flag set. -/
theorem claim_C10_flag_monotone_w :
    ExpiredAuthorizationRetryChecker.should_retry ctx401T flagState =
      ⟨.indeterminate, flagState, 0, 0⟩ ∧
    truthyOpt (stateGet
      (ExpiredAuthorizationRetryChecker.should_retry ctx401T flagState).state
      "has_done_reauth") = true :=
  ⟨(claim_C10_flag_monotone ctx401T flagState).1 (by decide),
   (claim_C10_flag_monotone ctx401T flagState).2.1 (by decide)⟩

/-- Claim C8: each of the four stateless checkers, evaluated twice on
the same context (the second time on the state left by the first),
yields the same verdict both times and never touches the state; for
`ExpiredAuthorizationRetryChecker`, if the two verdicts differ then the
difference is only via the reauthorization flag the first evaluation
itself set: the flag was unset before, is set after, and the verdicts
went Retry then Indeterminate. -/
theorem claim_C8_idempotent (max_retries : Nat) (context : RetryContext)
    (st : RetryState) :
    twiceSameVerdict (maxRetriesChecker max_retries) context st ∧
    twiceSameVerdict standardExceptionChecker context st ∧
    twiceSameVerdict retryAfterChecker context st ∧
    twiceSameVerdict transientErrorChecker context st ∧
    ((ExpiredAuthorizationRetryChecker.should_retry context st).verdict ≠
        (ExpiredAuthorizationRetryChecker.should_retry context
          (ExpiredAuthorizationRetryChecker.should_retry context st).state).verdict →
      truthyOpt (stateGet st "has_done_reauth") = false ∧
      truthyOpt (stateGet
        (ExpiredAuthorizationRetryChecker.should_retry context st).state
        "has_done_reauth") = true ∧
      (ExpiredAuthorizationRetryChecker.should_retry context st).verdict = .retry ∧
      (ExpiredAuthorizationRetryChecker.should_retry context
        (ExpiredAuthorizationRetryChecker.should_retry context st).state).verdict =
        .indeterminate) := by
  refine ⟨⟨rfl, rfl⟩, ⟨rfl, rfl⟩, ⟨rfl, rfl⟩, ⟨rfl, rfl⟩, ?_⟩
  intro hne
  rcases EA_step_shape context st with h1 | ⟨hf, h1⟩ | ⟨hf, h1⟩
  · simp only [h1] at hne
    exact absurd rfl hne
  · simp only [h1] at hne
    exact absurd rfl hne
  · refine ⟨hf, ?_, ?_, ?_⟩
    · simp only [h1]
      exact flag_truthy_after_set st
    · rw [h1]
    · simp only [h1]
      rw [EA_flag_noop context _ (flag_truthy_after_set st)]

/-- Witness for claim C8 at a concrete 401 context with a successful
refresh from an empty state, where the two verdicts do differ. -/
theorem claim_C8_idempotent_w :
    truthyOpt (stateGet ([] : RetryState) "has_done_reauth") = false ∧
    truthyOpt (stateGet
      (ExpiredAuthorizationRetryChecker.should_retry ctx401T []).state
      "has_done_reauth") = true ∧
    (ExpiredAuthorizationRetryChecker.should_retry ctx401T []).verdict = .retry ∧
    (ExpiredAuthorizationRetryChecker.should_retry ctx401T
      (ExpiredAuthorizationRetryChecker.should_retry ctx401T []).state).verdict =
      .indeterminate :=
  (claim_C8_idempotent 5 ctx401T []).2.2.2.2 (by decide)

/-- Claim C6: for every ordered checker list and every context,
`RetryPolicy.evaluate` returns the verdict of the first checker that
returns a non-Indeterminate verdict — the result is that checker's,
computed on the state threaded through the earlier (all-Indeterminate)
checkers, and is independent of every checker after it — and if every
checker returns Indeterminate the policy returns DoNotRetry. -/
theorem claim_C6_policy (pre post : List Checker) (c : Checker)
    (context : RetryContext) (st : RetryState) :
    (RetryPolicy.allIndeterminate pre context st = true →
      (c context (RetryPolicy.runAll pre context st)).1 ≠ .indeterminate →
      RetryPolicy.evaluate (pre ++ c :: post) context st =
        c context (RetryPolicy.runAll pre context st)) ∧
    (∀ checkers : List Checker,
      RetryPolicy.allIndeterminate checkers context st = true →
      (RetryPolicy.evaluate checkers context st).1 = .doNotRetry) := by
  constructor
  · induction pre generalizing st with
    | nil =>
      intro _ hdec
      simp only [RetryPolicy.runAll] at hdec ⊢
      simp only [List.nil_append, RetryPolicy.evaluate]
      rw [if_neg hdec]
    | cons p pre' ih =>
      intro hall hdec
      simp only [RetryPolicy.allIndeterminate] at hall
      by_cases hp : (p context st).1 = .indeterminate
      · rw [if_pos hp] at hall
        simp only [RetryPolicy.runAll] at hdec ⊢
        simp only [List.cons_append, RetryPolicy.evaluate]
        rw [if_pos hp]
        exact ih (p context st).2 hall hdec
      · rw [if_neg hp] at hall
        cases hall
  · intro checkers
    induction checkers generalizing st with
    | nil =>
      intro _
      rfl
    | cons c' rest ih =>
      intro hall
      simp only [RetryPolicy.allIndeterminate] at hall
      by_cases hc : (c' context st).1 = .indeterminate
      · rw [if_pos hc] at hall
        simp only [RetryPolicy.evaluate]
        rw [if_pos hc]
        exact ih (c' context st).2 hall
      · rw [if_neg hc] at hall
        cases hall

/-- Witness for claim C6 at a concrete three-checker policy on a 500
response (the max-retries checker defers, the transient-error checker
decides Retry, the exception checker is never consulted), and at a
concrete all-Indeterminate policy. -/
theorem claim_C6_policy_w :
    RetryPolicy.evaluate
        [maxRetriesChecker 5, transientErrorChecker, standardExceptionChecker]
        ctx500 [] =
      transientErrorChecker ctx500
        (RetryPolicy.runAll [maxRetriesChecker 5] ctx500 []) ∧
    (RetryPolicy.evaluate [maxRetriesChecker 5] ctx500 []).1 = .doNotRetry :=
  ⟨(claim_C6_policy [maxRetriesChecker 5] [standardExceptionChecker]
      transientErrorChecker ctx500 []).1 (by decide) (by decide),
   (claim_C6_policy [] [] transientErrorChecker ctx500 []).2
     [maxRetriesChecker 5] (by decide)⟩

end RetryModel
